import Mathlib

/-
  Shallow embedding of the Ollama model adapter
  (src/pkg/model/ollama/ollama.go) of the adk-go-agi repository.

  The adapter converts an abstract LLM request (a list of conversation
  contents) into Ollama chat API calls, in synchronous or streaming mode,
  normalizing the two message/response schemas and handling cancellation
  and backend failure.  The Go code is embedded as executable Lean
  definitions; context cancellation is modelled by a monotone clock
  (the step at which the cancellation signal fires), and the external
  ollama api client Chat call is modelled by the list of chunks it would
  deliver to the callback plus an optional terminal error, with the
  documented client behaviour that a callback error aborts the call and
  is returned from Chat.
-/

namespace AdkOllama

/-- A genai.Part: text, an optional inline-data blob (only its presence
matters to the adapter) and an optional function call (only its name is
read). -/
structure Part where
  text : String
  hasInlineData : Bool
  functionCall : Option String
deriving DecidableEq

/-- A genai.Content: a role string and a list of part pointers (a pointer
may be nil, modelled as none). -/
structure Content where
  role : String
  parts : List (Option Part)
deriving DecidableEq

/-- An Ollama api.Message. -/
structure Message where
  role : String
  content : String
deriving DecidableEq

/-- An Ollama api.ChatResponse chunk: message role/content, the Done flag,
and the Metrics token counts (Go int values, non-negative token counts;
the int32 conversions applied when building usage metadata are
value-preserving on this domain). -/
structure ChatResponse where
  role : String
  content : String
  done : Bool
  promptEvalCount : Nat
  evalCount : Nat
deriving DecidableEq

/-- The zero value of api.ChatResponse (the sync collector variable starts
out as this zero value). -/
def zeroChatResponse : ChatResponse :=
  { role := "", content := "", done := false, promptEvalCount := 0, evalCount := 0 }

/-- genai usage metadata attached to a response. -/
structure UsageMetadata where
  promptTokenCount : Nat
  candidatesTokenCount : Nat
  totalTokenCount : Nat
deriving DecidableEq

/-- genai finish reason: the zero value, or FinishReasonStop. -/
inductive FinishReason where
  | unspecified
  | stop
deriving DecidableEq

/-- model.LLMResponse as populated by this adapter: content role/text,
the Partial and TurnComplete flags (Go zero value false unless assigned),
optional usage metadata and the finish reason. -/
structure LLMResponse where
  contentRole : String
  contentText : String
  isPartial : Bool
  turnComplete : Bool
  usageMetadata : Option UsageMetadata
  finishReason : FinishReason
deriving DecidableEq

/-- genai.GenerateContentConfig as far as the spec's GenerationConfig is
concerned: presence of temperature, topP and maxOutputTokens (the adapter
never reads the numeric values, so only presence is modelled). -/
structure GenerateContentConfig where
  temperature : Option Unit
  topP : Option Unit
  maxOutputTokens : Option Unit
deriving DecidableEq

/-- model.LLMRequest: the conversation contents (pointers, possibly nil)
and the optional generation config carried by the request. -/
structure LLMRequest where
  contents : List (Option Content)
  config : Option GenerateContentConfig
deriving DecidableEq

/-- An Ollama api.ChatRequest as built by the adapter: model name,
messages, the options map (opaque pass-through key/value pairs) and the
Stream pointer (new(bool) = some false, ptrBool(true) = some true). -/
structure ChatRequest where
  model : String
  messages : List Message
  options : List (String × String)
  stream : Option Bool
deriving DecidableEq

/- ------------------------------------------------------------------
   Request normalizer: convertContentsToMessages
   ------------------------------------------------------------------ -/

/-- Role determination of convertContentsToMessages: role := content.Role;
if role == "" then "user"; if role == "model" then "assistant". -/
def determineRole (role : String) : String :=
  let role1 := if role = "" then "user" else role
  if role1 = "model" then "assistant" else role1

/-- One step of the text-extraction loop over a content's parts: a nil
part is skipped; otherwise non-empty text is appended, then the inline
data placeholder, then the function call placeholder. -/
def partStep (acc : String) (op : Option Part) : String :=
  match op with
  | none => acc
  | some p =>
    let acc1 := if p.text ≠ "" then acc ++ p.text else acc
    let acc2 := if p.hasInlineData then acc1 ++ "[Inline data not yet supported]" else acc1
    match p.functionCall with
    | some n => acc2 ++ "[FunctionCall: " ++ n ++ "]"
    | none => acc2

/-- What a single non-nil part contributes to the extracted text. -/
def partText (p : Part) : String :=
  (if p.text ≠ "" then p.text else "")
    ++ (if p.hasInlineData then "[Inline data not yet supported]" else "")
    ++ (match p.functionCall with
        | some n => "[FunctionCall: " ++ n ++ "]"
        | none => "")

/-- The textContent accumulated by the loop over a content's parts. -/
def contentText (parts : List (Option Part)) : String :=
  parts.foldl partStep ""

/-- The api.Message built for one non-nil content. -/
def mkMessage (c : Content) : Message :=
  { role := determineRole c.role, content := contentText c.parts }

/-- convertContentsToMessages: skips nil contents, maps each remaining
content to one message, and always returns a nil error (.ok). -/
def convertContentsToMessages (contents : List (Option Content)) :
    Except String (List Message) :=
  .ok (contents.filterMap fun oc =>
    match oc with
    | none => none
    | some c => some (mkMessage c))

/- ------------------------------------------------------------------
   Response normalizer: convertChatResponseToLLMResponse
   ------------------------------------------------------------------ -/

/-- convertChatResponseToLLMResponse: wraps the chunk text in a "model"
content, attaches usage metadata only when a token count is positive
(total = prompt + completion), and maps Done to FinishReasonStop.
Partial and TurnComplete are left at their zero value false. -/
def convertChatResponseToLLMResponse (resp : ChatResponse) : LLMResponse :=
  { contentRole := "model"
    contentText := resp.content
    isPartial := false
    turnComplete := false
    usageMetadata :=
      if resp.promptEvalCount > 0 || resp.evalCount > 0 then
        some { promptTokenCount := resp.promptEvalCount
               candidatesTokenCount := resp.evalCount
               totalTokenCount := resp.promptEvalCount + resp.evalCount }
      else none
    finishReason := if resp.done then .stop else .unspecified }

/- ------------------------------------------------------------------
   Generation engines
   ------------------------------------------------------------------ -/

/-- A Go context, reduced to its cancellation signal: cancelAt = some s
means ctx.Err() becomes non-nil from observation step s on; none means
the context is never cancelled. -/
structure Ctx where
  cancelAt : Option Nat
deriving DecidableEq

/-- Whether ctx.Err() is non-nil at observation step t. -/
def Ctx.canceledAt (c : Ctx) (t : Nat) : Bool :=
  match c.cancelAt with
  | none => false
  | some s => decide (s ≤ t)

/-- An element yielded to the consumer of the iter.Seq2: either a
response (with nil error) or an error (with nil response). -/
inductive GenOut where
  | resp (r : LLMResponse)
  | err (msg : String)
deriving DecidableEq

/-- The observable outcome of one generate call: the sequence of yield
invocations, in order, and the chat request issued to the backend
(none when no backend call was made). -/
structure GenResult where
  outputs : List GenOut
  chatReq : Option ChatRequest
deriving DecidableEq

/-- The streaming callback's normalization of one chunk:
llmResp.Partial = !resp.Done, llmResp.TurnComplete = resp.Done. -/
def normalizeStreamChunk (c : ChatResponse) : LLMResponse :=
  { convertChatResponseToLLMResponse c with
      isPartial := !c.done, turnComplete := c.done }

/-- The modelled api client Chat loop of StreamGenerator.generate: the
client delivers the chunks in order to the callback, aborting on a
callback error, and otherwise finishes with the backend result
(none = nil error, some e = backend failure).  For each chunk the
callback checks ctx (observation step t+1, returning ctx.Err() when
cancelled), normalizes the chunk and yields it; a declined yield makes
the callback return the consumer-stopped error.  accept n tells whether
the n-th yield invocation returns true.  Returns the yield invocations,
the number of yields, Chat's returned error, and the clock after the
loop. -/
def streamChatLoop (ctx : Ctx) (accept : Nat → Bool) (backendErr : Option String) :
    List ChatResponse → Nat → Nat → List GenOut × Nat × Option String × Nat
  | [], yc, t => ([], yc, backendErr, t)
  | c :: rest, yc, t =>
    if ctx.canceledAt (t + 1) then
      ([], yc, some "context canceled", t + 1)
    else
      let r := normalizeStreamChunk c
      if accept yc then
        let res := streamChatLoop ctx accept backendErr rest (yc + 1) (t + 1)
        (GenOut.resp r :: res.1, res.2)
      else
        ([GenOut.resp r], yc + 1, some "consumer stopped", t + 1)

/-- StreamGenerator.generate: early-cancellation check at step 0 (no
yield, no backend call), request normalization, the streaming chat call,
and the failure handling: a Chat error is suppressed when ctx is
cancelled at the post-call check, otherwise wrapped and yielded once. -/
def streamGenerate (name : String) (opts : List (String × String)) (ctx : Ctx)
    (accept : Nat → Bool) (req : LLMRequest) (chunks : List ChatResponse)
    (backendErr : Option String) : GenResult :=
  if ctx.canceledAt 0 then
    { outputs := [], chatReq := none }
  else
    match convertContentsToMessages req.contents with
    | .error e => { outputs := [GenOut.err ("failed to convert contents: " ++ e)], chatReq := none }
    | .ok messages =>
      let chatReq : ChatRequest :=
        { model := name, messages := messages, options := opts, stream := some true }
      let res := streamChatLoop ctx accept backendErr chunks 0 0
      match res.2.2.1 with
      | none => { outputs := res.1, chatReq := some chatReq }
      | some e =>
        if ctx.canceledAt (res.2.2.2 + 1) then
          { outputs := res.1, chatReq := some chatReq }
        else
          { outputs := res.1 ++ [GenOut.err ("ollama streaming failed: " ++ e)],
            chatReq := some chatReq }

/-- SyncGenerator.generate: early-cancellation check at step 0, request
normalization, one chat call whose collector callback overwrites the
response variable on every chunk (so the last chunk observed wins; the
variable's zero value stands when no chunk arrives), failure handling
(suppressed when ctx is cancelled at the post-call check, step 1), and
on success one yield of the converted last response. -/
def syncGenerate (name : String) (opts : List (String × String)) (ctx : Ctx)
    (req : LLMRequest) (chunks : List ChatResponse)
    (backendErr : Option String) : GenResult :=
  if ctx.canceledAt 0 then
    { outputs := [], chatReq := none }
  else
    match convertContentsToMessages req.contents with
    | .error e => { outputs := [GenOut.err ("failed to convert contents: " ++ e)], chatReq := none }
    | .ok messages =>
      let chatReq : ChatRequest :=
        { model := name, messages := messages, options := opts, stream := some false }
      let response := (chunks.getLast?).getD zeroChatResponse
      match backendErr with
      | some e =>
        if ctx.canceledAt 1 then
          { outputs := [], chatReq := some chatReq }
        else
          { outputs := [GenOut.err ("ollama chat failed: " ++ e)], chatReq := some chatReq }
      | none =>
        { outputs := [GenOut.resp (convertChatResponseToLLMResponse response)],
          chatReq := some chatReq }

/-- Concrete three-chunk streaming scenario used as the C1 witness input
(spec Scenario C: "Hel", "lo", "!", only the third chunk final). -/
def demoChunks : List ChatResponse :=
  [ { role := "assistant", content := "Hel", done := false, promptEvalCount := 0, evalCount := 0 },
    { role := "assistant", content := "lo", done := false, promptEvalCount := 0, evalCount := 0 },
    { role := "assistant", content := "!", done := true, promptEvalCount := 3, evalCount := 2 } ]

/-- The single final chunk of the spec's sync Scenario A. -/
def finalChunk : ChatResponse :=
  { role := "assistant", content := "Hi", done := true, promptEvalCount := 3, evalCount := 2 }

/-- A request carrying a GenerationConfig whose temperature field is
present (used to probe the backend-option mapping). -/
def reqWithTemp : LLMRequest :=
  { contents := [],
    config := some { temperature := some (), topP := none, maxOutputTokens := none } }

/- ------------------------------------------------------------------
   Helper lemmas
   ------------------------------------------------------------------ -/

/-- A never-cancelled context reports no cancellation at any step. -/
theorem Ctx.canceledAt_none (t : Nat) : Ctx.canceledAt ⟨none⟩ t = false := rfl

/-- When the context never cancels and the consumer accepts every yield,
the streaming chat loop yields the normalization of every chunk in
order, finishing with the backend result. -/
theorem streamChatLoop_accept_all (accept : Nat → Bool)
    (hacc : ∀ n, accept n = true) (backendErr : Option String)
    (cs : List ChatResponse) (yc t : Nat) :
    streamChatLoop ⟨none⟩ accept backendErr cs yc t
      = (cs.map fun c => GenOut.resp (normalizeStreamChunk c),
         yc + cs.length, backendErr, t + cs.length) := by
  induction cs generalizing yc t with
  | nil => simp [streamChatLoop]
  | cons c rest ih =>
    simp [streamChatLoop, Ctx.canceledAt, hacc, ih (yc + 1) (t + 1)]
    constructor
    · omega
    · omega

/-- When the consumer accepts every yield and the context is not yet
cancelled at any per-chunk check, the streaming chat loop yields the
normalization of every chunk in order, finishing with the backend
result. -/
theorem streamChatLoop_no_cancel (ctx : Ctx) (accept : Nat → Bool)
    (hacc : ∀ n, accept n = true) (backendErr : Option String)
    (cs : List ChatResponse) (yc t : Nat)
    (hctx : ∀ j, j < cs.length → ctx.canceledAt (t + j + 1) = false) :
    streamChatLoop ctx accept backendErr cs yc t
      = (cs.map fun c => GenOut.resp (normalizeStreamChunk c),
         yc + cs.length, backendErr, t + cs.length) := by
  induction cs generalizing yc t with
  | nil => simp [streamChatLoop]
  | cons c rest ih =>
    have h0 : ctx.canceledAt (t + 1) = false := by
      have := hctx 0 (by simp)
      simpa using this
    have hrest : ∀ j, j < rest.length → ctx.canceledAt (t + 1 + j + 1) = false := by
      intro j hj
      have := hctx (j + 1) (by simpa using Nat.succ_lt_succ hj)
      have heq : t + (j + 1) + 1 = t + 1 + j + 1 := by omega
      rwa [heq] at this
    simp [streamChatLoop, h0, hacc, ih (yc + 1) (t + 1) hrest]
    constructor
    · omega
    · omega

/-- A nil part leaves the accumulated text unchanged. -/
theorem partStep_none (acc : String) : partStep acc none = acc := rfl

/-- A non-nil part appends exactly its own contribution to the
accumulated text. -/
theorem partStep_some (acc : String) (p : Part) :
    partStep acc (some p) = acc ++ partText p := by
  rcases p with ⟨tx, hid, fc⟩
  apply String.ext
  by_cases htx : tx = "" <;> cases hid <;> cases fc <;>
    simp [partStep, partText, htx, String.data_append]

/-- The extracted text of a part list is the in-order concatenation of
the contributions of its non-nil parts. -/
theorem contentText_concat (ps : List (Option Part)) :
    contentText ps = (ps.filterMap id).foldl (fun acc p => acc ++ partText p) "" := by
  have key : ∀ (l : List (Option Part)) (a : String),
      l.foldl partStep a = (l.filterMap id).foldl (fun acc p => acc ++ partText p) a := by
    intro l
    induction l with
    | nil => intro a; rfl
    | cons op rest ih =>
      intro a
      cases op with
      | none => simpa [partStep] using ih a
      | some p => simp [List.filterMap_cons, partStep_some, ih]
  exact key ps ""

/-- On the no-cancellation, backend-success, consumer-accepts-all path,
streaming generate yields exactly the normalized chunks in order. -/
theorem streamGenerate_success (name : String) (opts : List (String × String))
    (accept : Nat → Bool) (hacc : ∀ n, accept n = true)
    (req : LLMRequest) (cs : List ChatResponse) :
    (streamGenerate name opts ⟨none⟩ accept req cs none).outputs
      = cs.map fun c => GenOut.resp (normalizeStreamChunk c) := by
  simp [streamGenerate, convertContentsToMessages, Ctx.canceledAt,
    streamChatLoop_accept_all accept hacc]

end AdkOllama

namespace AdkOllama

/- ------------------------------------------------------------------
   Claim theorems
   ------------------------------------------------------------------ -/

/-- C1: In streaming mode, for any sequence of N backend chunks delivered
in order c1..cN with only cN having isFinal (Done) set, generate emits
exactly N canonical responses in the same order, each with isPartial
equal to the negation of its chunk's Done flag; only the last response
has turnComplete (isFinal) true, and all prior responses have isPartial
true.  (No cancellation, backend success, consumer accepts every
element.) -/
theorem C1_streaming_order (name : String) (opts : List (String × String))
    (accept : Nat → Bool) (req : LLMRequest) (cs : List ChatResponse)
    (hacc : ∀ n, accept n = true) (hne : cs ≠ [])
    (hlast : (cs.getLast hne).done = true)
    (hprior : ∀ i : Fin cs.length, (i : Nat) + 1 < cs.length → (cs.get i).done = false) :
    (streamGenerate name opts ⟨none⟩ accept req cs none).outputs
        = (cs.map fun c => GenOut.resp (normalizeStreamChunk c))
      ∧ (streamGenerate name opts ⟨none⟩ accept req cs none).outputs.length = cs.length
      ∧ (∀ c ∈ cs, (normalizeStreamChunk c).isPartial = !c.done)
      ∧ (normalizeStreamChunk (cs.getLast hne)).turnComplete = true
      ∧ (∀ i : Fin cs.length, (i : Nat) + 1 < cs.length →
          (normalizeStreamChunk (cs.get i)).isPartial = true)
      ∧ (∀ i : Fin cs.length, (i : Nat) + 1 < cs.length →
          (normalizeStreamChunk (cs.get i)).turnComplete = false) := by
  refine ⟨streamGenerate_success name opts accept hacc req cs, ?_, ?_, ?_, ?_, ?_⟩
  · rw [streamGenerate_success name opts accept hacc req cs, List.length_map]
  · intro c _
    simp [normalizeStreamChunk]
  · simp [normalizeStreamChunk, hlast]
  · intro i h
    simpa [normalizeStreamChunk] using hprior i h
  · intro i h
    simpa [normalizeStreamChunk] using hprior i h

/-- Witness for C1 at the concrete three-chunk scenario. -/
theorem C1_streaming_order_witness :
    (streamGenerate "llama3.2" [] ⟨none⟩ (fun _ => true) ⟨[], none⟩ demoChunks none).outputs
      = (demoChunks.map fun c => GenOut.resp (normalizeStreamChunk c)) :=
  (C1_streaming_order "llama3.2" [] (fun _ => true) ⟨[], none⟩ demoChunks
    (fun _ => rfl) (by decide) (by decide) (by decide)).1

/-- C2 counterexample: in synchronous mode on a successful call the
emitted response is the normalization of the last chunk, but its
turnComplete (isFinal) flag is the Go zero value false — the sync path
never assigns TurnComplete — contradicting the claim's isFinal = true. -/
theorem C2_counterexample :
    (syncGenerate "llama3.2" [] ⟨none⟩ ⟨[], none⟩ [finalChunk] none).outputs
        = [GenOut.resp (convertChatResponseToLLMResponse finalChunk)]
      ∧ (convertChatResponseToLLMResponse finalChunk).turnComplete = false := by
  exact ⟨rfl, rfl⟩

/-- C2 (amended): in synchronous mode, when the backend call succeeds
after delivering one or more chunks, generate emits exactly one canonical
response — the normalization of the last chunk observed — with
isPartial = false, then terminates; earlier chunks are never emitted.
The turnComplete (isFinal) flag of the emitted response is left false;
completion is signalled through finishReason = stop when the last chunk
has Done set. -/
theorem C2_sync_amended (name : String) (opts : List (String × String))
    (req : LLMRequest) (cs : List ChatResponse) (hne : cs ≠ []) :
    (syncGenerate name opts ⟨none⟩ req cs none).outputs
        = [GenOut.resp (convertChatResponseToLLMResponse (cs.getLast hne))]
      ∧ (convertChatResponseToLLMResponse (cs.getLast hne)).isPartial = false
      ∧ (convertChatResponseToLLMResponse (cs.getLast hne)).turnComplete = false
      ∧ ((cs.getLast hne).done = true →
          (convertChatResponseToLLMResponse (cs.getLast hne)).finishReason = FinishReason.stop) := by
  refine ⟨?_, rfl, rfl, ?_⟩
  · simp [syncGenerate, convertContentsToMessages, Ctx.canceledAt,
      List.getLast?_eq_getLast cs hne]
  · intro h
    simp [convertChatResponseToLLMResponse, h]

/-- Witness for the amended C2 at the two-chunk input whose first chunk
is discarded by the collector. -/
theorem C2_sync_amended_witness :
    (syncGenerate "llama3.2" [] ⟨none⟩ ⟨[], none⟩ [zeroChatResponse, finalChunk] none).outputs
      = [GenOut.resp (convertChatResponseToLLMResponse
          ([zeroChatResponse, finalChunk].getLast (by decide)))] :=
  (C2_sync_amended "llama3.2" [] ⟨[], none⟩ [zeroChatResponse, finalChunk] (by decide)).1

/-- C3: on backend failure in either mode, if cancellation has fired at
the post-call check the error is suppressed and nothing further is
emitted; otherwise exactly one error element is emitted and the sequence
terminates.  In streaming mode the responses already emitted before the
failure remain delivered (the trailing error is appended after them,
nothing is retracted). -/
theorem C3_backend_failure (name : String) (opts : List (String × String))
    (accept : Nat → Bool) (req : LLMRequest) (cs : List ChatResponse)
    (e : String) (hacc : ∀ n, accept n = true) :
    (syncGenerate name opts ⟨none⟩ req cs (some e)).outputs
        = [GenOut.err ("ollama chat failed: " ++ e)]
      ∧ (syncGenerate name opts ⟨some 1⟩ req cs (some e)).outputs = []
      ∧ (streamGenerate name opts ⟨none⟩ accept req cs (some e)).outputs
          = (cs.map fun c => GenOut.resp (normalizeStreamChunk c))
            ++ [GenOut.err ("ollama streaming failed: " ++ e)]
      ∧ (streamGenerate name opts ⟨some (cs.length + 1)⟩ accept req cs (some e)).outputs
          = (cs.map fun c => GenOut.resp (normalizeStreamChunk c)) := by
  refine ⟨?_, ?_, ?_, ?_⟩
  · simp [syncGenerate, convertContentsToMessages, Ctx.canceledAt]
  · simp [syncGenerate, convertContentsToMessages, Ctx.canceledAt]
  · simp [streamGenerate, convertContentsToMessages, Ctx.canceledAt,
      streamChatLoop_accept_all accept hacc]
  · have hctx : ∀ j, j < cs.length →
        Ctx.canceledAt ⟨some (cs.length + 1)⟩ (0 + j + 1) = false := by
      intro j hj
      simp [Ctx.canceledAt]
      omega
    simp [streamGenerate, convertContentsToMessages, Ctx.canceledAt,
      streamChatLoop_no_cancel ⟨some (cs.length + 1)⟩ accept hacc (some e) cs 0 0 hctx]

/-- Witness for C3 at a one-chunk stream and the error "boom". -/
theorem C3_backend_failure_witness :
    (streamGenerate "llama3.2" [] ⟨none⟩ (fun _ => true) ⟨[], none⟩
        [zeroChatResponse] (some "boom")).outputs
      = ([zeroChatResponse].map fun c => GenOut.resp (normalizeStreamChunk c))
        ++ [GenOut.err ("ollama streaming failed: " ++ "boom")] :=
  (C3_backend_failure "llama3.2" [] (fun _ => true) ⟨[], none⟩ [zeroChatResponse]
    "boom" (fun _ => rfl)).2.2.1

/-- C4: if the cancellation signal has already fired before generate is
invoked, both modes yield zero responses and zero errors and issue no
backend call. -/
theorem C4_pre_canceled (name : String) (opts : List (String × String))
    (ctx : Ctx) (accept : Nat → Bool) (req : LLMRequest)
    (cs : List ChatResponse) (e : Option String)
    (h : ctx.canceledAt 0 = true) :
    syncGenerate name opts ctx req cs e = { outputs := [], chatReq := none }
      ∧ streamGenerate name opts ctx accept req cs e = { outputs := [], chatReq := none } := by
  constructor
  · simp [syncGenerate, h]
  · simp [streamGenerate, h]

/-- Witness for C4 with a context cancelled at step 0. -/
theorem C4_pre_canceled_witness :
    syncGenerate "llama3.2" [] ⟨some 0⟩ ⟨[], none⟩ demoChunks none
      = { outputs := [], chatReq := none } :=
  (C4_pre_canceled "llama3.2" [] ⟨some 0⟩ (fun _ => true) ⟨[], none⟩ demoChunks none rfl).1

/-- C5 counterexample: a turn with the role "tool" — neither empty nor
one of the recognized roles — is passed through as "tool" rather than
being mapped to "user", contradicting the claim's permissive default. -/
theorem C5_counterexample :
    convertContentsToMessages [some { role := "tool", parts := [] }]
        = .ok [{ role := "tool", content := "" }]
      ∧ ("tool" : String) ≠ "user" := by
  exact ⟨rfl, by decide⟩

/-- C5 (amended): the request normalizer maps "user" to "user", the
empty role to "user", "model" to "assistant", and leaves "assistant",
"system" and every other role value unchanged; the mapping never
produces an error (the conversion always returns ok). -/
theorem C5_role_mapping_amended (role : String) (c : Content) :
    determineRole "user" = "user"
      ∧ determineRole "" = "user"
      ∧ determineRole "model" = "assistant"
      ∧ determineRole "assistant" = "assistant"
      ∧ determineRole "system" = "system"
      ∧ (role ≠ "" → role ≠ "model" → determineRole role = role)
      ∧ convertContentsToMessages [some c]
          = .ok [{ role := determineRole c.role, content := contentText c.parts }] := by
  refine ⟨by decide, by decide, by decide, by decide, by decide, ?_, rfl⟩
  intro h1 h2
  simp [determineRole, h1, h2]

/-- Witness for the amended C5 at the unrecognized role "tool". -/
theorem C5_role_mapping_amended_witness :
    determineRole "tool" = "tool" :=
  (C5_role_mapping_amended "tool" { role := "tool", parts := [] }).2.2.2.2.2.1
    (by decide) (by decide)

/-- C6: the request normalizer produces exactly one backend message per
(non-nil) turn, in the same order; an empty input yields an empty
message list without fabricating a message; a turn's message text is the
in-order concatenation of the contributions of its parts, where a pure
text part contributes its text and non-text parts contribute short
bracketed placeholder strings. -/
theorem C6_normalizer_shape (cs : List Content) :
    convertContentsToMessages (cs.map some) = .ok (cs.map mkMessage)
      ∧ (∀ ms, convertContentsToMessages (cs.map some) = .ok ms → ms.length = cs.length)
      ∧ convertContentsToMessages [] = .ok []
      ∧ (∀ c : Content, contentText c.parts
            = (c.parts.filterMap id).foldl (fun acc p => acc ++ partText p) "")
      ∧ (∀ s : String, s ≠ "" →
          partText { text := s, hasInlineData := false, functionCall := none } = s)
      ∧ partText { text := "", hasInlineData := true, functionCall := none }
          = "[Inline data not yet supported]"
      ∧ (∀ n : String,
          partText { text := "", hasInlineData := false, functionCall := some n }
            = "[FunctionCall: " ++ n ++ "]") := by
  have h1 : convertContentsToMessages (cs.map some) = .ok (cs.map mkMessage) := by
    induction cs with
    | nil => rfl
    | cons c rest ih =>
      simp only [convertContentsToMessages, Except.ok.injEq] at ih
      simp [convertContentsToMessages, List.filterMap_cons, ih]
  refine ⟨h1, ?_, rfl, ?_, ?_, ?_, ?_⟩
  · intro ms hms
    rw [h1] at hms
    cases hms
    simp
  · intro c
    exact contentText_concat c.parts
  · intro s hs
    apply String.ext
    simp [partText, hs, String.data_append]
  · apply String.ext
    simp [partText, String.data_append]
  · intro n
    apply String.ext
    simp [partText, String.data_append]

/-- Witness for C6 at a one-turn conversation whose message text keeps
the text fragment. -/
theorem C6_normalizer_shape_witness :
    partText { text := "Hello", hasInlineData := false, functionCall := none } = "Hello" :=
  ((C6_normalizer_shape []).2.2.2.2.1) "Hello" (by decide)

/-- C7: the response normalizer attaches usage metadata iff at least one
of the backend token counts is positive; when attached, the prompt and
completion counts are copied and the total is exactly their sum; a chunk
with both counts zero gets no usage metadata. -/
theorem C7_usage_metadata (resp : ChatResponse) :
    ((convertChatResponseToLLMResponse resp).usageMetadata.isSome
        ↔ (0 < resp.promptEvalCount ∨ 0 < resp.evalCount))
      ∧ (∀ u, (convertChatResponseToLLMResponse resp).usageMetadata = some u →
          u.totalTokenCount = u.promptTokenCount + u.candidatesTokenCount
            ∧ u.promptTokenCount = resp.promptEvalCount
            ∧ u.candidatesTokenCount = resp.evalCount)
      ∧ (resp.promptEvalCount = 0 → resp.evalCount = 0 →
          (convertChatResponseToLLMResponse resp).usageMetadata = none) := by
  refine ⟨?_, ?_, ?_⟩
  · rcases Nat.eq_zero_or_pos resp.promptEvalCount with h1 | h1 <;>
      rcases Nat.eq_zero_or_pos resp.evalCount with h2 | h2 <;>
        simp [convertChatResponseToLLMResponse, h1, h2, Nat.pos_iff_ne_zero]
  · intro u hu
    by_cases h : resp.promptEvalCount > 0 || resp.evalCount > 0
    · simp [convertChatResponseToLLMResponse, h] at hu
      rw [← hu]
      exact ⟨rfl, rfl, rfl⟩
    · simp [convertChatResponseToLLMResponse, h] at hu
  · intro h1 h2
    simp [convertChatResponseToLLMResponse, h1, h2]

/-- Witness for C7 at the Scenario A chunk (3 prompt + 2 completion
tokens, total 5). -/
theorem C7_usage_metadata_witness :
    UsageMetadata.totalTokenCount
        { promptTokenCount := 3, candidatesTokenCount := 2, totalTokenCount := 5 }
      = UsageMetadata.promptTokenCount
          { promptTokenCount := 3, candidatesTokenCount := 2, totalTokenCount := 5 }
        + UsageMetadata.candidatesTokenCount
            { promptTokenCount := 3, candidatesTokenCount := 2, totalTokenCount := 5 } :=
  ((C7_usage_metadata finalChunk).2.1
    { promptTokenCount := 3, candidatesTokenCount := 2, totalTokenCount := 5 } (by decide)).1

/-- C8 counterexample: a request carrying a GenerationConfig with
temperature present produces a backend call whose options map is empty
(the adapter-level options, here none) — the present field is not
translated into a named option, contradicting the claim. -/
theorem C8_counterexample :
    reqWithTemp.config.isSome = true
      ∧ (syncGenerate "llama3.2" [] ⟨none⟩ reqWithTemp [finalChunk] none).chatReq
          = some { model := "llama3.2", messages := [], options := [], stream := some false } := by
  exact ⟨rfl, rfl⟩

/-- C8 (amended): in both modes the adapter passes its construction-time
options map through to the backend call unchanged (every issued chat
request carries exactly that map, so no default is invented for unset
fields), and the request's GenerationConfig is ignored entirely: the
generate outcome is independent of it. -/
theorem C8_options_amended (name : String) (opts : List (String × String))
    (ctx : Ctx) (accept : Nat → Bool) (contents : List (Option Content))
    (cfg cfg' : Option GenerateContentConfig) (cs : List ChatResponse)
    (e : Option String) :
    syncGenerate name opts ctx ⟨contents, cfg⟩ cs e
        = syncGenerate name opts ctx ⟨contents, cfg'⟩ cs e
      ∧ streamGenerate name opts ctx accept ⟨contents, cfg⟩ cs e
          = streamGenerate name opts ctx accept ⟨contents, cfg'⟩ cs e
      ∧ (∀ cr, (syncGenerate name opts ctx ⟨contents, cfg⟩ cs e).chatReq = some cr →
          cr.options = opts)
      ∧ (∀ cr, (streamGenerate name opts ctx accept ⟨contents, cfg⟩ cs e).chatReq = some cr →
          cr.options = opts) := by
  refine ⟨rfl, rfl, ?_, ?_⟩
  · intro cr hcr
    unfold syncGenerate at hcr
    by_cases h : Ctx.canceledAt ctx 0 <;>
      simp [h, convertContentsToMessages] at hcr
    rcases e with _ | e'
    · simp at hcr
      rw [← hcr]
    · by_cases h2 : Ctx.canceledAt ctx 1 <;> simp [h2] at hcr <;> rw [← hcr]
  · intro cr hcr
    unfold streamGenerate at hcr
    by_cases h : Ctx.canceledAt ctx 0 <;>
      simp [h, convertContentsToMessages] at hcr
    rcases hloop : (streamChatLoop ctx accept e cs 0 0).2.2.1 with _ | e'
    · simp [hloop] at hcr
      rw [← hcr]
    · by_cases h2 : Ctx.canceledAt ctx ((streamChatLoop ctx accept e cs 0 0).2.2.2 + 1) <;>
        simp [hloop, h2] at hcr <;> rw [← hcr]

/-- Witness for the amended C8: the issued chat request carries exactly
the construction-time options map. -/
theorem C8_options_amended_witness :
    ChatRequest.options
        { model := "llama3.2", messages := [],
          options := [("temperature", "0.7")], stream := some false }
      = [("temperature", "0.7")] :=
  (C8_options_amended "llama3.2" [("temperature", "0.7")] ⟨none⟩ (fun _ => true)
    [] (some { temperature := some (), topP := none, maxOutputTokens := none }) none
    [] none).2.2.1
    { model := "llama3.2", messages := [],
      options := [("temperature", "0.7")], stream := some false } (by decide)

/-- C9 (code bug): when the consumer declines the very first streaming
response and the backend call consequently returns the consumer-stopped
error while the context is not cancelled, the engine invokes the
consumer again with a trailing error element — the yield sequence has a
second invocation after the declined one, contradicting the claim (and
Go's iterator contract, which forbids calling yield after it returned
false). -/
theorem C9_consumer_stop_eval :
    (streamGenerate "llama3.2" [] ⟨none⟩ (fun _ => false) ⟨[], none⟩ demoChunks none).outputs
      = [GenOut.resp (normalizeStreamChunk
            { role := "assistant", content := "Hel", done := false,
              promptEvalCount := 0, evalCount := 0 }),
         GenOut.err ("ollama streaming failed: " ++ "consumer stopped")] := by
  rfl

/-- C10: nil conversation-turn entries contribute no backend message and
cause no error — the normalizer yields exactly one message per non-nil
turn, in order; nil part entries within a turn are likewise skipped. -/
theorem C10_nil_skipping (contents : List (Option Content)) :
    convertContentsToMessages contents = .ok ((contents.filterMap id).map mkMessage)
      ∧ (∀ pre post, convertContentsToMessages (pre ++ none :: post)
            = convertContentsToMessages (pre ++ post))
      ∧ (∀ ps ps2 : List (Option Part),
          contentText (ps ++ none :: ps2) = contentText (ps ++ ps2)) := by
  refine ⟨?_, ?_, ?_⟩
  · have hfun : (fun oc : Option Content =>
        match oc with | none => none | some c => some (mkMessage c))
          = fun x => Option.map mkMessage (id x) := by
      funext oc
      cases oc <;> rfl
    rw [convertContentsToMessages, List.map_filterMap, ← hfun]
  · intro pre post
    simp [convertContentsToMessages, List.filterMap_append, List.filterMap_cons]
  · intro ps ps2
    simp [contentText, List.foldl_append, partStep]

end AdkOllama
